import Mathlib

/-!
Verification of the appconfiguration Rust SDK against its natural-language
specification.

The Rust sources are embedded shallowly:

* pure functions (`src/value.rs`, `src/models.rs`) become Lean functions over
  exact data; machine integers are `Int`/`Nat` with explicit 64-bit bounds;
  the `f64` payloads are modelled as exact rationals (every finite IEEE-754
  double is a rational, and no operation in scope performs floating-point
  arithmetic on one);
* fallible Rust functions returning `Result` become `Except Error`;
* `HashMap`s become association lists whose key lists are `Nodup`;
* the background update loop (`src/client/app_configuration_ibm_cloud.rs`)
  becomes a labelled transition system whose states carry the pending socket
  messages, the pending catalog fetch results, the terminator-channel status
  and the list of snapshots installed into the shared store.

Parts of the repository that are referenced by the sources but whose files are
not among them (`src/client/cache.rs`, the snapshot view types, `src/errors.rs`)
are modelled from the specification; each such definition carries a doc comment
starting with "Modelled from the spec".
-/

deriving instance DecidableEq for Except

namespace AppConfig

/-- Smallest value of a 64-bit signed integer. -/
def i64Min : Int := -(2 ^ 63)

/-- Largest value of a 64-bit signed integer. -/
def i64Max : Int := 2 ^ 63 - 1

/-- The `Value` enum from `src/value.rs`: a tagged variant over the primitive
types accepted by the library. -/
inductive Value where
  | float64 (v : ℚ)
  | uint64 (v : Nat)
  | int64 (v : Int)
  | string (v : String)
  | boolean (v : Bool)
deriving DecidableEq, Repr

/-- Error values constructed by the embedded code paths.  `src/errors.rs` is
not among the sources; the variants below are exactly the ones the embedded
functions construct (`Error::MismatchType`, `Error::ProtocolError`,
`ConfigurationAccessError::MissingSegments`, the unknown-resource and
missing-environment errors named by the spec, and `Error::Other`). -/
inductive Error where
  | mismatchType
  | protocolError (msg : String)
  | missingSegments (resource_id : String)
  | featureNotFound (feature_id : String)
  | propertyNotFound (property_id : String)
  | environmentNotFound (environment_id : String)
  | other (msg : String)
deriving DecidableEq, Repr

/-- `impl From<f64> for Value` (src/value.rs line 27). -/
def Value.from_f64 (v : ℚ) : Value := .float64 v

/-- `impl From<u64> for Value` (src/value.rs line 33). -/
def Value.from_u64 (v : Nat) : Value := .uint64 v

/-- `impl From<i64> for Value` (src/value.rs line 39). -/
def Value.from_i64 (v : Int) : Value := .int64 v

/-- `impl From<String> for Value` (src/value.rs line 45). -/
def Value.from_string (v : String) : Value := .string v

/-- `impl From<bool> for Value` (src/value.rs line 51). -/
def Value.from_bool (v : Bool) : Value := .boolean v

/-- `impl TryFrom<Value> for f64` (src/value.rs line 57): only the `Float64`
variant converts; every other variant is a type mismatch. -/
def tryIntoF64 : Value → Except Error ℚ
  | .float64 f => .ok f
  | _ => .error .mismatchType

/-- `impl TryFrom<Value> for u64` (src/value.rs line 68): `UInt64` converts
directly; `Int64` converts through `v.try_into()`, which succeeds exactly when
the value is non-negative; everything else is a type mismatch. -/
def tryIntoU64 : Value → Except Error Nat
  | .uint64 f => .ok f
  | .int64 v => if 0 ≤ v then .ok v.toNat else .error .mismatchType
  | _ => .error .mismatchType

/-- `impl TryFrom<Value> for i64` (src/value.rs line 80): `Int64` converts
directly; `UInt64` converts through `v.try_into()`, which succeeds exactly when
the value is at most `i64::MAX`; everything else is a type mismatch. -/
def tryIntoI64 : Value → Except Error Int
  | .int64 f => .ok f
  | .uint64 v => if (v : Int) ≤ i64Max then .ok v else .error .mismatchType
  | _ => .error .mismatchType

/-- `impl TryFrom<Value> for String` (src/value.rs line 92). -/
def tryIntoString : Value → Except Error String
  | .string f => .ok f
  | _ => .error .mismatchType

/-- `impl TryFrom<Value> for bool` (src/value.rs line 103). -/
def tryIntoBool : Value → Except Error Bool
  | .boolean f => .ok f
  | _ => .error .mismatchType

/-- `ValueKind` from src/models.rs line 77: the declared type of a catalog
value, deserialized from `NUMERIC`, `BOOLEAN` or `STRING`. -/
inductive ValueKind where
  | numeric
  | boolean
  | string
deriving DecidableEq, Repr

/-- A JSON number as stored by `serde_json` (without arbitrary precision):
integer literals that fit in `u64` are stored as unsigned, negative integer
literals as signed, and every literal with a fraction or exponent as a double.
The double payload is modelled as an exact rational. -/
inductive JsonNumber where
  | posInt (n : Nat)
  | negInt (n : Int)
  | float (q : ℚ)
deriving DecidableEq, Repr

/-- A `serde_json::Value` as wrapped by `ConfigValue` (src/models.rs line 99).
Arrays and objects are collapsed into one constructor: no operation in scope
inspects their contents (every accessor used by the sources returns `None` on
them). -/
inductive Json where
  | null
  | boolean (b : Bool)
  | number (n : JsonNumber)
  | str (s : String)
  | composite
deriving DecidableEq, Repr

/-- `ConfigValue` from src/models.rs line 99: a dynamically typed scalar
wrapping a `serde_json::Value`. -/
structure ConfigValue where
  val : Json
deriving DecidableEq, Repr

/-- `ConfigValue::as_i64` (src/models.rs line 102), delegating to
`serde_json::Value::as_i64`: defined for unsigned storage within the `i64`
range and for signed storage; `None` for doubles and non-numbers. -/
def ConfigValue.as_i64 : ConfigValue → Option Int
  | ⟨.number (.posInt n)⟩ => if (n : Int) ≤ i64Max then some n else none
  | ⟨.number (.negInt n)⟩ => some n
  | _ => none

/-- `ConfigValue::as_u64` (src/models.rs line 106): defined exactly for
unsigned integer storage. -/
def ConfigValue.as_u64 : ConfigValue → Option Nat
  | ⟨.number (.posInt n)⟩ => some n
  | _ => none

/-- `ConfigValue::as_f64` (src/models.rs line 110): defined for every number.
For integer storage `serde_json` converts with `as f64`, which rounds beyond
2^53; that branch is unreachable from `TryFrom<(ValueKind, ConfigValue)>`
below (it is consulted only when both integer views are `None`, i.e. on double
storage, where the conversion is the identity), so the rational returned here
is exact on every reachable input. -/
def ConfigValue.as_f64 : ConfigValue → Option ℚ
  | ⟨.number (.posInt n)⟩ => some n
  | ⟨.number (.negInt n)⟩ => some n
  | ⟨.number (.float q)⟩ => some q
  | _ => none

/-- `ConfigValue::as_boolean` (src/models.rs line 114). -/
def ConfigValue.as_boolean : ConfigValue → Option Bool
  | ⟨.boolean b⟩ => some b
  | _ => none

/-- `ConfigValue::as_string` (src/models.rs line 118). -/
def ConfigValue.as_string : ConfigValue → Option String
  | ⟨.str s⟩ => some s
  | _ => none

/-- `impl TryFrom<(ValueKind, ConfigValue)> for Value` (src/models.rs line
137): for `Numeric` try `as_i64`, then `as_u64`, then `as_f64`, else a
protocol error; for `Boolean` and `String` a failed accessor is a type
mismatch. -/
def valueOfKindConfig : ValueKind → ConfigValue → Except Error Value
  | .numeric, v =>
    match v.as_i64 with
    | some n => .ok (.int64 n)
    | none =>
      match v.as_u64 with
      | some n => .ok (.uint64 n)
      | none =>
        match v.as_f64 with
        | some q => .ok (.float64 q)
        | none => .error (.protocolError "Cannot convert numeric type")
  | .boolean, v =>
    match v.as_boolean with
    | some b => .ok (.boolean b)
    | none => .error .mismatchType
  | .string, v =>
    match v.as_string with
    | some s => .ok (.string s)
    | none => .error .mismatchType

/-- The numeric value encoded by a JSON number, as an exact rational. -/
def JsonNumber.numericValue : JsonNumber → ℚ
  | .posInt n => n
  | .negInt n => n
  | .float q => q

/-- Formalizes the claim's wording "the encoded number is representable as
i64": the encoded numeric value is an integer lying in the `i64` range. -/
def JsonNumber.representableAsI64 (n : JsonNumber) : Bool :=
  decide (n.numericValue.den = 1 ∧ i64Min ≤ n.numericValue.num ∧ n.numericValue.num ≤ i64Max)

/-- `SegmentRule` from src/models.rs line 168: one predicate of a segment. -/
structure SegmentRule where
  attribute_name : String
  operator : String
  values : List String
deriving DecidableEq, Repr

/-- `Segment` from src/models.rs line 36. -/
structure Segment where
  name : String
  segment_id : String
  description : String
  tags : Option String
  rules : List SegmentRule
deriving DecidableEq, Repr

/-- `Segments` from src/models.rs line 183: one segment-id group of a
targeting rule (a disjunction of segment ids). -/
structure Segments where
  segments : List String
deriving DecidableEq, Repr

/-- `TargetingRule` from src/models.rs line 175. -/
structure TargetingRule where
  rules : List Segments
  value : ConfigValue
  order : Nat
  rollout_percentage : Option ConfigValue
deriving DecidableEq, Repr

/-- `Feature` from src/models.rs line 48. -/
structure Feature where
  name : String
  feature_id : String
  kind : ValueKind
  format : Option String
  enabled_value : ConfigValue
  disabled_value : ConfigValue
  segment_rules : List TargetingRule
  enabled : Bool
  rollout_percentage : Nat
deriving DecidableEq, Repr

/-- `Property` from src/models.rs line 63. -/
structure Property where
  name : String
  property_id : String
  kind : ValueKind
  tags : Option String
  format : Option String
  value : ConfigValue
  segment_rules : List TargetingRule
deriving DecidableEq, Repr

/-- `Environment` from src/models.rs line 27. -/
structure Environment where
  name : String
  environment_id : String
  features : List Feature
  properties : List Property
deriving DecidableEq, Repr

/-- `Configuration` from src/models.rs line 21: the parsed catalog document. -/
structure Configuration where
  environments : List Environment
  segments : List Segment
deriving DecidableEq, Repr

/-- The distinct segment ids referenced by the targeting rules of a feature, as
collected in `AppConfigurationClientIBMCloud::get_feature`
(src/client/app_configuration_ibm_cloud.rs lines 230-240): a flat map over
`segment_rules`, their `rules` and their `segments`, gathered into a `HashSet`
(modelled by removing duplicates). -/
def Feature.referencedSegmentIds (f : Feature) : List String :=
  (f.segment_rules.flatMap fun tr => tr.rules.flatMap fun sg => sg.segments).dedup

/-- The distinct segment ids referenced by the targeting rules of a property,
as collected in `AppConfigurationClientIBMCloud::get_property`
(src/client/app_configuration_ibm_cloud.rs lines 288-298). -/
def Property.referencedSegmentIds (p : Property) : List String :=
  (p.segment_rules.flatMap fun tr => tr.rules.flatMap fun sg => sg.segments).dedup

/-- Modelled from the spec: `ConfigurationSnapshot` (src/client/cache.rs is not
among the sources).  Per spec section 3, a catalog snapshot holds the mappings
`feature_id → Feature`, `property_id → Property` and `segment_id → Segment`
for the environment selected for this client; the hash maps are modelled as
association lists. -/
structure ConfigurationSnapshot where
  environment_id : String
  features : List (String × Feature)
  properties : List (String × Property)
  segments : List (String × Segment)
deriving DecidableEq, Repr

/-- Modelled from the spec: `ConfigurationSnapshot::new` (src/client/cache.rs
is not among the sources).  Per spec section 3, "exactly one environment block
matches the configured environment id; otherwise catalog construction fails"
(the missing-environment error, fatal on construction, spec section 7); the
retained features, properties and segments are keyed by their ids.  Per spec
section 7 the missing-segments integrity condition is "surfaced on the
resource lookup that touches it" — matching the explicit integrity checks in
the in-source lookups (src/client/app_configuration_ibm_cloud.rs lines
248-254 and 306-313) — so construction performs no segment-reference check. -/
def ConfigurationSnapshot.new (environment_id : String) (c : Configuration) :
    Except Error ConfigurationSnapshot :=
  match c.environments.filter (fun e => e.environment_id == environment_id) with
  | [env] =>
    .ok { environment_id := environment_id
          features := env.features.map fun f => (f.feature_id, f)
          properties := env.properties.map fun p => (p.property_id, p)
          segments := c.segments.map fun s => (s.segment_id, s) }
  | _ => .error (.environmentNotFound environment_id)

/-- Modelled from the spec: looking a feature up in the snapshot's feature map
(`config_snapshot.get_feature(feature_id)?` in the sources); an absent id is
the unknown-resource error of spec section 7. -/
def ConfigurationSnapshot.get_feature (s : ConfigurationSnapshot)
    (feature_id : String) : Except Error Feature :=
  match s.features.lookup feature_id with
  | some f => .ok f
  | none => .error (.featureNotFound feature_id)

/-- Modelled from the spec: looking a property up in the snapshot's property
map; an absent id is the unknown-resource error of spec section 7. -/
def ConfigurationSnapshot.get_property (s : ConfigurationSnapshot)
    (property_id : String) : Except Error Property :=
  match s.properties.lookup property_id with
  | some p => .ok p
  | none => .error (.propertyNotFound property_id)

/-- Modelled from the spec: `FeatureSnapshot` — the deep copy of one feature
plus the subset of segments it references (spec section 4.4, snapshot view). -/
structure FeatureSnapshot where
  feature : Feature
  segments : List (String × Segment)
deriving DecidableEq, Repr

/-- Modelled from the spec: `PropertySnapshot` — the deep copy of one property
plus the subset of segments it references (spec section 4.4, snapshot view). -/
structure PropertySnapshot where
  property : Property
  segments : List (String × Segment)
deriving DecidableEq, Repr

/-- The segment sub-map extracted by the lookups: the entries of the snapshot's
segment map whose key belongs to the collected id set
(src/client/app_configuration_ibm_cloud.rs lines 241-246 and 299-304). -/
def segmentSubset (segs : List (String × Segment)) (ids : List String) :
    List (String × Segment) :=
  segs.filter fun kv => decide (kv.1 ∈ ids)

/-- `AppConfigurationClientIBMCloud::get_feature`
(src/client/app_configuration_ibm_cloud.rs lines 222-260), with the snapshot
currently held behind the store's mutex passed explicitly: look the feature up,
collect the segment ids its targeting rules reference, extract those segments,
and fail with the missing-segments integrity error when the extracted map is
smaller than the id set. -/
def client_get_feature (snapshot : ConfigurationSnapshot) (feature_id : String) :
    Except Error FeatureSnapshot :=
  match snapshot.get_feature feature_id with
  | .error e => .error e
  | .ok feature =>
    let all_segment_ids := feature.referencedSegmentIds
    let segments := segmentSubset snapshot.segments all_segment_ids
    if all_segment_ids.length ≠ segments.length then
      .error (.missingSegments feature_id)
    else
      .ok { feature := feature, segments := segments }

/-- `AppConfigurationClientIBMCloud::get_property`
(src/client/app_configuration_ibm_cloud.rs lines 280-319), with the snapshot
currently held behind the store's mutex passed explicitly. -/
def client_get_property (snapshot : ConfigurationSnapshot) (property_id : String) :
    Except Error PropertySnapshot :=
  match snapshot.get_property property_id with
  | .error e => .error e
  | .ok property =>
    let all_segment_ids := property.referencedSegmentIds
    let segments := segmentSubset snapshot.segments all_segment_ids
    if all_segment_ids.length ≠ segments.length then
      .error (.missingSegments property_id)
    else
      .ok { property := property, segments := segments }

/-- Formalizes the integrity condition of spec section 3: every segment id
referenced by any targeting rule of any retained feature or property resolves
in the snapshot's segment map. -/
def segmentReferencesResolve (s : ConfigurationSnapshot) : Bool :=
  (s.features.all fun kv =>
    kv.2.referencedSegmentIds.all fun i => decide (i ∈ s.segments.map Prod.fst)) &&
  (s.properties.all fun kv =>
    kv.2.referencedSegmentIds.all fun i => decide (i ∈ s.segments.map Prod.fst))

/-- `tungstenite::Message` as distinguished by the update loop
(src/client/app_configuration_ibm_cloud.rs lines 121-137): textual payloads are
kept; the payloads of the other variants are never inspected and are dropped. -/
inductive Message where
  | text (s : String)
  | binary
  | ping
  | pong
  | close
  | frame
deriving DecidableEq, Repr

/-- Outcome of one blocking `socket.read()`: a transport error (propagated by
`?`) or a message. -/
abbrev ReadResult := Except Error Message

/-- Modelled from the spec: the transport is "a pair of functions that return a
parsed catalog document and a message stream" (spec section 1); one invocation
of `http::get_configuration` yields either a parsed catalog document or a
transport/parse error. -/
abbrev FetchResult := Except Error Configuration

/-- `AppConfigurationClientIBMCloud::get_configuration_snapshot`
(src/client/app_configuration_ibm_cloud.rs lines 95-110): fetch the catalog
document and build a snapshot for the configured environment. -/
def get_configuration_snapshot (environment_id : String) (fetch : FetchResult) :
    Except Error ConfigurationSnapshot := do
  let configuration ← fetch
  ConfigurationSnapshot.new environment_id configuration

/-- `AppConfigurationClientIBMCloud::wait_for_configuration_update`
(src/client/app_configuration_ibm_cloud.rs lines 112-139) over the remaining
socket messages: read until something decisive happens.  A read error
propagates; the exact keep-alive text "test message" is skipped; any other
textual payload returns a freshly fetched snapshot; a close frame returns an
error; every other message kind is skipped.  `none` models the loop blocking
forever because no further message ever arrives; `some` also returns the
messages not yet consumed. -/
def wait_for_configuration_update (environment_id : String) (fetch : FetchResult) :
    List ReadResult → Option (Except Error ConfigurationSnapshot × List ReadResult)
  | [] => none
  | r :: rest =>
    match r with
    | .error e => some (.error e, rest)
    | .ok (.text s) =>
      if s = "test message" then
        wait_for_configuration_update environment_id fetch rest
      else
        some (get_configuration_snapshot environment_id fetch, rest)
    | .ok .close => some (.error (.other "Connection closed by the server"), rest)
    | .ok _ => wait_for_configuration_update environment_id fetch rest

/-- The only ways `wait_for_configuration_update` returns: a fresh snapshot
fetch triggered by a non-keep-alive textual message, the connection-closed
error triggered by a close frame, or a propagated socket read error. -/
def WaitOutcome (environment_id : String) (fetch : FetchResult)
    (socket : List ReadResult) (res : Except Error ConfigurationSnapshot) : Prop :=
  (res = get_configuration_snapshot environment_id fetch ∧
    ∃ s, s ≠ "test message" ∧ .ok (.text s) ∈ socket) ∨
  (res = .error (.other "Connection closed by the server") ∧ .ok .close ∈ socket) ∨
  (∃ e, res = .error e ∧ .error e ∈ socket)

/-- Where the background thread of `update_configuration_on_change`
(src/client/app_configuration_ibm_cloud.rs lines 151-177) currently is. -/
inductive UpdaterPhase where
  | atLoopTop
  | waiting
  | done
deriving DecidableEq, Repr

/-- State of the update loop together with its environment: whether the facade
(the terminator channel's `Sender`) has been dropped, the loop's phase, the
socket messages not yet read, the pending catalog fetch outcomes (one consumed
per refresh), and the snapshots installed into the shared store, in order. -/
structure UpdaterState where
  dropped : Bool
  phase : UpdaterPhase
  socket : List ReadResult
  fetchQueue : List FetchResult
  store : List ConfigurationSnapshot
deriving DecidableEq, Repr

/-- Observable actions of the update loop and its environment. -/
inductive UpdaterLabel where
  | drop
  | checkContinue
  | checkStop
  | skipMessage
  | install (snap : ConfigurationSnapshot)
  | fetchFailed (e : Error)
  | failStop (e : Error)
deriving DecidableEq, Repr

/-- How many installations into the shared store a label list performs. -/
def countInstalls : List UpdaterLabel → Nat
  | [] => 0
  | .install _ :: t => countInstalls t + 1
  | _ :: t => countInstalls t

/-- Whether a label makes the loop terminate on its own error: a failed
refetch, a close frame, or a socket read error. -/
def isFailureLabel : UpdaterLabel → Bool
  | .fetchFailed _ => true
  | .failStop _ => true
  | _ => false

/-- How many further installations the loop can perform from this state while
the facade is dropped: one if it is inside a wait that was already in progress,
none otherwise. -/
def installBudget (s : UpdaterState) : Nat :=
  if s.phase = .waiting then 1 else 0

/-- One step of the update loop or of its environment, translated from
`update_configuration_on_change` and `wait_for_configuration_update`
(src/client/app_configuration_ibm_cloud.rs lines 112-180).

* `drop`: the facade is dropped at an arbitrary moment, closing the terminator
  channel; it does not touch the loop.
* `checkStop` / `checkContinue`: the `receiver.try_recv()` check at the top of
  the loop body (lines 154-158): `Disconnected` breaks, `Empty` proceeds into
  `wait_for_configuration_update`.
* `skipKeepAlive` / `skipOther`: one `socket.read()` whose message is the
  keep-alive text or a non-text non-close message; the wait keeps reading.
* `refreshInstall`: one `socket.read()` yielding a non-keep-alive text; the
  catalog is refetched and the snapshot built; on success the loop installs it
  into the store (`*latest_config_snapshot.lock()? = config_snapshot`, line
  169) and returns to the top of the loop.
* `refreshFailed`: same read, but the refetch or the snapshot build fails; the
  loop logs and breaks (lines 170-173).
* `closeStop`: a close frame; `wait_for_configuration_update` returns the
  connection-closed error and the loop breaks.
* `readFailed`: `socket.read()` itself fails; the error propagates and the
  loop breaks. -/
inductive UpdaterStep (environment_id : String) :
    UpdaterState → UpdaterLabel → UpdaterState → Prop where
  | drop (s : UpdaterState) (h : s.dropped = false) :
      UpdaterStep environment_id s .drop { s with dropped := true }
  | checkStop (s : UpdaterState) (h1 : s.phase = .atLoopTop) (h2 : s.dropped = true) :
      UpdaterStep environment_id s .checkStop { s with phase := .done }
  | checkContinue (s : UpdaterState) (h1 : s.phase = .atLoopTop) (h2 : s.dropped = false) :
      UpdaterStep environment_id s .checkContinue { s with phase := .waiting }
  | skipKeepAlive (s : UpdaterState) (rest : List ReadResult)
      (h1 : s.phase = .waiting) (h2 : s.socket = .ok (.text "test message") :: rest) :
      UpdaterStep environment_id s .skipMessage { s with socket := rest }
  | skipOther (s : UpdaterState) (m : Message) (rest : List ReadResult)
      (h1 : s.phase = .waiting) (h2 : s.socket = .ok m :: rest)
      (h3 : m = .binary ∨ m = .ping ∨ m = .pong ∨ m = .frame) :
      UpdaterStep environment_id s .skipMessage { s with socket := rest }
  | refreshInstall (s : UpdaterState) (str : String) (rest : List ReadResult)
      (f : FetchResult) (fq : List FetchResult) (snap : ConfigurationSnapshot)
      (h1 : s.phase = .waiting) (h2 : s.socket = .ok (.text str) :: rest)
      (h3 : str ≠ "test message") (h4 : s.fetchQueue = f :: fq)
      (h5 : get_configuration_snapshot environment_id f = .ok snap) :
      UpdaterStep environment_id s (.install snap)
        { s with phase := .atLoopTop, socket := rest, fetchQueue := fq,
                 store := s.store ++ [snap] }
  | refreshFailed (s : UpdaterState) (str : String) (rest : List ReadResult)
      (f : FetchResult) (fq : List FetchResult) (e : Error)
      (h1 : s.phase = .waiting) (h2 : s.socket = .ok (.text str) :: rest)
      (h3 : str ≠ "test message") (h4 : s.fetchQueue = f :: fq)
      (h5 : get_configuration_snapshot environment_id f = .error e) :
      UpdaterStep environment_id s (.fetchFailed e)
        { s with phase := .done, socket := rest, fetchQueue := fq }
  | closeStop (s : UpdaterState) (rest : List ReadResult)
      (h1 : s.phase = .waiting) (h2 : s.socket = .ok .close :: rest) :
      UpdaterStep environment_id s (.failStop (.other "Connection closed by the server"))
        { s with phase := .done, socket := rest }
  | readFailed (s : UpdaterState) (e : Error) (rest : List ReadResult)
      (h1 : s.phase = .waiting) (h2 : s.socket = .error e :: rest) :
      UpdaterStep environment_id s (.failStop e) { s with phase := .done, socket := rest }

/-- Finite executions of the update loop: the reflexive-transitive closure of
`UpdaterStep`, recording the emitted labels. -/
inductive UpdaterTrace (environment_id : String) :
    UpdaterState → List UpdaterLabel → UpdaterState → Prop where
  | done (s : UpdaterState) : UpdaterTrace environment_id s [] s
  | step {s1 : UpdaterState} {l : UpdaterLabel} {s2 : UpdaterState}
      {t : List UpdaterLabel} {s3 : UpdaterState} :
      UpdaterStep environment_id s1 l s2 → UpdaterTrace environment_id s2 t s3 →
      UpdaterTrace environment_id s1 (l :: t) s3

/-- The blocking and synchronization actions visible to other threads. -/
inductive SyncEvent where
  | socketRead
  | httpFetch
  | buildSnapshot
  | lockAcquire
  | storeSwap
  | lockRelease
deriving DecidableEq, Repr

/-- The socket, network and lock events performed while producing one loop
label, in program order (src/client/app_configuration_ibm_cloud.rs lines
119-174): each consumed message is one blocking `socket.read()`; a refresh
performs the HTTP fetch (`http::get_configuration`) and the snapshot build
(`ConfigurationSnapshot::new`) before the store's mutex is touched; the
install itself is the single statement
`*latest_config_snapshot.lock()? = config_snapshot`, which acquires the lock,
swaps the value and releases the lock.  For a failed refresh the events up to
the failure point occur; listing the full fetch sequence is the maximal case
(a transport failure performs no snapshot build), which only adds events
outside any lock window. -/
def labelSyncEvents : UpdaterLabel → List SyncEvent
  | .drop => []
  | .checkContinue => []
  | .checkStop => []
  | .skipMessage => [.socketRead]
  | .install _ => [.socketRead, .httpFetch, .buildSnapshot, .lockAcquire, .storeSwap, .lockRelease]
  | .fetchFailed _ => [.socketRead, .httpFetch, .buildSnapshot]
  | .failStop _ => [.socketRead]

/-- Scans an event list and checks that every acquisition of the store's lock
is immediately followed by the value swap and then by the release — so the
lock is held over nothing but the swap, and in particular over no socket read,
HTTP fetch or snapshot build. -/
def lockWindowsWellFormed : List SyncEvent → Bool
  | [] => true
  | .lockAcquire :: .storeSwap :: .lockRelease :: rest => lockWindowsWellFormed rest
  | .lockAcquire :: _ => false
  | _ :: rest => lockWindowsWellFormed rest

/-- A feature whose single targeting rule references segment id "s1". -/
def danglingFeature : Feature :=
  { name := "F1"
    feature_id := "f1"
    kind := .boolean
    format := none
    enabled_value := ⟨.boolean true⟩
    disabled_value := ⟨.boolean false⟩
    segment_rules :=
      [{ rules := [{ segments := ["s1"] }]
         value := ⟨.boolean true⟩
         order := 1
         rollout_percentage := none }]
    enabled := true
    rollout_percentage := 100 }

/-- A catalog document containing `danglingFeature` but declaring no segments
at all: its segment reference "s1" dangles. -/
def danglingConfiguration : Configuration :=
  { environments :=
      [{ name := "Dev"
         environment_id := "dev"
         features := [danglingFeature]
         properties := [] }]
    segments := [] }

/-- The snapshot built from `danglingConfiguration`. -/
def danglingSnapshot : ConfigurationSnapshot :=
  { environment_id := "dev"
    features := [("f1", danglingFeature)]
    properties := []
    segments := [] }

/-- A segment matching entities whose attribute "attr" is the string "gold". -/
def goldSegment : Segment :=
  { name := "Gold"
    segment_id := "s1"
    description := ""
    tags := none
    rules := [{ attribute_name := "attr", operator := "is", values := ["gold"] }] }

/-- A feature whose single targeting rule references `goldSegment`. -/
def premiumFeature : Feature :=
  { name := "F2"
    feature_id := "f2"
    kind := .string
    format := none
    enabled_value := ⟨.str "basic"⟩
    disabled_value := ⟨.str "off"⟩
    segment_rules :=
      [{ rules := [{ segments := ["s1"] }]
         value := ⟨.str "premium"⟩
         order := 1
         rollout_percentage := none }]
    enabled := true
    rollout_percentage := 100 }

/-- A property with no targeting rules. -/
def sampleProperty : Property :=
  { name := "P1"
    property_id := "p1"
    kind := .numeric
    tags := none
    format := none
    value := ⟨.number (.posInt 7)⟩
    segment_rules := [] }

/-- A well-formed snapshot: every referenced segment id resolves. -/
def sampleSnapshot : ConfigurationSnapshot :=
  { environment_id := "dev"
    features := [("f2", premiumFeature)]
    properties := [("p1", sampleProperty)]
    segments := [("s1", goldSegment)] }

/-- A catalog document for environment "dev" with no features, properties or
segments. -/
def emptyConfiguration : Configuration :=
  { environments :=
      [{ name := "Dev", environment_id := "dev", features := [], properties := [] }]
    segments := [] }

/-- The snapshot built from `emptyConfiguration`. -/
def emptySnapshot : ConfigurationSnapshot :=
  { environment_id := "dev", features := [], properties := [], segments := [] }

/-- Start state of the update loop for the shutdown scenarios: the facade is
alive, the loop is at the top of its body, one refresh notification is already
queued on the socket, and one successful fetch is pending. -/
def updaterStart : UpdaterState :=
  { dropped := false
    phase := .atLoopTop
    socket := [.ok (.text "configuration changed")]
    fetchQueue := [.ok emptyConfiguration]
    store := [] }

/-- Final state of the shutdown scenario: the facade has been dropped, the
loop has exited, and one snapshot was installed after the drop. -/
def updaterAfterDropFinal : UpdaterState :=
  { dropped := true
    phase := .done
    socket := []
    fetchQueue := []
    store := [emptySnapshot] }

/-- C8: wrapping a primitive of any supported type into a `Value` via its
`From` impl and converting back to the same primitive type via `TryFrom`
succeeds and yields the original primitive. -/
theorem C8_value_round_trip :
    (∀ q : ℚ, tryIntoF64 (Value.from_f64 q) = .ok q) ∧
    (∀ n : Nat, tryIntoU64 (Value.from_u64 n) = .ok n) ∧
    (∀ v : Int, tryIntoI64 (Value.from_i64 v) = .ok v) ∧
    (∀ s : String, tryIntoString (Value.from_string s) = .ok s) ∧
    (∀ b : Bool, tryIntoBool (Value.from_bool b) = .ok b) :=
  ⟨fun _ => rfl, fun _ => rfl, fun _ => rfl, fun _ => rfl, fun _ => rfl⟩

/-- C7: converting a `Value` to a primitive succeeds across variants only
between the two integer kinds and only when the numeric value is representable
in the target: `Int64 v` converts to `u64` exactly when `0 ≤ v`, `UInt64 v`
converts to `i64` exactly when `v ≤ i64::MAX` (both preserving the numeric
value), and every other cross-variant conversion fails with a type-mismatch
error. -/
theorem C7_value_conversions :
    (∀ v : Int, 0 ≤ v → tryIntoU64 (Value.int64 v) = .ok v.toNat ∧ (v.toNat : Int) = v) ∧
    (∀ v : Int, v < 0 → tryIntoU64 (Value.int64 v) = .error .mismatchType) ∧
    (∀ n : Nat, (n : Int) ≤ i64Max → tryIntoI64 (Value.uint64 n) = .ok (n : Int)) ∧
    (∀ n : Nat, i64Max < (n : Int) → tryIntoI64 (Value.uint64 n) = .error .mismatchType) ∧
    (∀ v : Int, tryIntoF64 (Value.int64 v) = .error .mismatchType) ∧
    (∀ n : Nat, tryIntoF64 (Value.uint64 n) = .error .mismatchType) ∧
    (∀ s : String, tryIntoF64 (Value.string s) = .error .mismatchType) ∧
    (∀ b : Bool, tryIntoF64 (Value.boolean b) = .error .mismatchType) ∧
    (∀ q : ℚ, tryIntoU64 (Value.float64 q) = .error .mismatchType) ∧
    (∀ s : String, tryIntoU64 (Value.string s) = .error .mismatchType) ∧
    (∀ b : Bool, tryIntoU64 (Value.boolean b) = .error .mismatchType) ∧
    (∀ q : ℚ, tryIntoI64 (Value.float64 q) = .error .mismatchType) ∧
    (∀ s : String, tryIntoI64 (Value.string s) = .error .mismatchType) ∧
    (∀ b : Bool, tryIntoI64 (Value.boolean b) = .error .mismatchType) ∧
    (∀ q : ℚ, tryIntoString (Value.float64 q) = .error .mismatchType) ∧
    (∀ n : Nat, tryIntoString (Value.uint64 n) = .error .mismatchType) ∧
    (∀ v : Int, tryIntoString (Value.int64 v) = .error .mismatchType) ∧
    (∀ b : Bool, tryIntoString (Value.boolean b) = .error .mismatchType) ∧
    (∀ q : ℚ, tryIntoBool (Value.float64 q) = .error .mismatchType) ∧
    (∀ n : Nat, tryIntoBool (Value.uint64 n) = .error .mismatchType) ∧
    (∀ v : Int, tryIntoBool (Value.int64 v) = .error .mismatchType) ∧
    (∀ s : String, tryIntoBool (Value.string s) = .error .mismatchType) := by
  refine ⟨?_, ?_, ?_, ?_, fun _ => rfl, fun _ => rfl, fun _ => rfl, fun _ => rfl,
    fun _ => rfl, fun _ => rfl, fun _ => rfl, fun _ => rfl, fun _ => rfl, fun _ => rfl,
    fun _ => rfl, fun _ => rfl, fun _ => rfl, fun _ => rfl, fun _ => rfl, fun _ => rfl,
    fun _ => rfl, fun _ => rfl⟩
  · intro v h
    exact ⟨by simp [tryIntoU64, h], Int.toNat_of_nonneg h⟩
  · intro v h
    simp [tryIntoU64, not_le.mpr h]
  · intro n h
    simp [tryIntoI64, h]
  · intro n h
    simp [tryIntoI64, not_le.mpr h]

/-- C7 witness: the range-checked integer conversions at concrete inputs. -/
theorem C7_value_conversions_witness :
    (tryIntoU64 (Value.int64 5) = .ok (5 : Int).toNat ∧ (((5 : Int).toNat : Int) = 5)) ∧
    tryIntoU64 (Value.int64 (-3)) = .error .mismatchType ∧
    tryIntoI64 (Value.uint64 7) = .ok ((7 : Nat) : Int) ∧
    tryIntoI64 (Value.uint64 (2 ^ 63)) = .error .mismatchType :=
  ⟨C7_value_conversions.1 5 (by decide),
   C7_value_conversions.2.1 (-3) (by decide),
   C7_value_conversions.2.2.1 7 (by decide),
   C7_value_conversions.2.2.2.1 (2 ^ 63) (by decide)⟩

/-- C6 counterexample: the JSON number 42.0 — float-encoded, hence stored as a
double by serde_json — is exactly representable as an i64, yet the NUMERIC
conversion yields `Float64 42` rather than `Int64 42`: the variant is chosen
by the storage class of the encoding, not by exact representability. -/
theorem C6_counterexample :
    JsonNumber.representableAsI64 (.float 42) = true ∧
    valueOfKindConfig .numeric ⟨.number (.float 42)⟩ = .ok (.float64 42) ∧
    Value.float64 42 ≠ Value.int64 42 :=
  ⟨by decide, rfl, by decide⟩

/-- C6 amended: under NUMERIC the variant is decided by the storage class of
the encoded number: integer-encoded values within the i64 range become
`Int64`, integer-encoded values above `i64::MAX` become `UInt64`, and every
float-encoded number becomes `Float64` (even when its numeric value is an
exact integer); a NUMERIC-declared value that is not a number yields a
protocol error, and BOOLEAN/STRING-declared values that do not match their
kind yield a type-mismatch error. -/
theorem C6_numeric_typing_amended :
    (∀ n : Nat, (n : Int) ≤ i64Max →
      valueOfKindConfig .numeric ⟨.number (.posInt n)⟩ = .ok (.int64 n)) ∧
    (∀ n : Nat, i64Max < (n : Int) →
      valueOfKindConfig .numeric ⟨.number (.posInt n)⟩ = .ok (.uint64 n)) ∧
    (∀ n : Int, valueOfKindConfig .numeric ⟨.number (.negInt n)⟩ = .ok (.int64 n)) ∧
    (∀ q : ℚ, valueOfKindConfig .numeric ⟨.number (.float q)⟩ = .ok (.float64 q)) ∧
    (∀ v : Json, (∀ n, v ≠ .number n) →
      valueOfKindConfig .numeric ⟨v⟩ = .error (.protocolError "Cannot convert numeric type")) ∧
    (∀ b : Bool, valueOfKindConfig .boolean ⟨.boolean b⟩ = .ok (.boolean b)) ∧
    (∀ v : Json, (∀ b, v ≠ .boolean b) →
      valueOfKindConfig .boolean ⟨v⟩ = .error .mismatchType) ∧
    (∀ s : String, valueOfKindConfig .string ⟨.str s⟩ = .ok (.string s)) ∧
    (∀ v : Json, (∀ s, v ≠ .str s) →
      valueOfKindConfig .string ⟨v⟩ = .error .mismatchType) := by
  refine ⟨?_, ?_, fun _ => rfl, fun _ => rfl, ?_, fun _ => rfl, ?_, fun _ => rfl, ?_⟩
  · intro n h
    simp [valueOfKindConfig, ConfigValue.as_i64, h]
  · intro n h
    simp [valueOfKindConfig, ConfigValue.as_i64, ConfigValue.as_u64, not_le.mpr h]
  · intro v h
    cases v with
    | number n => exact absurd rfl (h n)
    | _ => rfl
  · intro v h
    cases v with
    | boolean b => exact absurd rfl (h b)
    | _ => rfl
  · intro v h
    cases v with
    | str s => exact absurd rfl (h s)
    | _ => rfl

/-- C6 amended witness: the typing function at concrete inputs of each kind. -/
theorem C6_numeric_typing_amended_witness :
    valueOfKindConfig .numeric ⟨.number (.posInt 5)⟩ = .ok (.int64 5) ∧
    valueOfKindConfig .numeric ⟨.number (.posInt (2 ^ 63))⟩ = .ok (.uint64 (2 ^ 63)) ∧
    valueOfKindConfig .numeric ⟨.str "x"⟩ = .error (.protocolError "Cannot convert numeric type") ∧
    valueOfKindConfig .boolean ⟨.str "x"⟩ = .error .mismatchType ∧
    valueOfKindConfig .string ⟨.boolean true⟩ = .error .mismatchType :=
  ⟨C6_numeric_typing_amended.1 5 (by decide),
   C6_numeric_typing_amended.2.1 (2 ^ 63) (by decide),
   C6_numeric_typing_amended.2.2.2.2.1 (.str "x") (by simp),
   C6_numeric_typing_amended.2.2.2.2.2.2.1 (.str "x") (by simp),
   C6_numeric_typing_amended.2.2.2.2.2.2.2.2 (.boolean true) (by simp)⟩

/-- Projecting the keys out of the extracted segment sub-map is the same as
filtering the snapshot's key list. -/
theorem segmentSubset_map_fst (segs : List (String × Segment)) (ids : List String) :
    (segmentSubset segs ids).map Prod.fst =
      (segs.map Prod.fst).filter fun k => decide (k ∈ ids) := by
  induction segs with
  | nil => rfl
  | cons kv rest ih =>
    simp only [segmentSubset] at ih ⊢
    by_cases h : kv.1 ∈ ids
    · simp [List.filter_cons, h, ih]
    · simp [List.filter_cons, h, ih]

/-- A `Nodup` key list filtered by membership in a `Nodup` id list has the same
length as the id list exactly when every id occurs among the keys: this is the
`HashSet`-cardinality comparison of the integrity check. -/
theorem length_filter_mem_eq_iff (keys ids : List String)
    (hk : keys.Nodup) (hi : ids.Nodup) :
    ((keys.filter fun k => decide (k ∈ ids)).length = ids.length) ↔
      ∀ i ∈ ids, i ∈ keys := by
  constructor
  · intro hlen i hmemi
    by_contra hmem
    have hsub : (keys.filter fun k => decide (k ∈ ids)) ⊆ ids.erase i := by
      intro x hx
      rcases List.mem_filter.mp hx with ⟨hxk, hxid⟩
      have hxid' : x ∈ ids := by simpa using hxid
      have hne : x ≠ i := fun he => hmem (he ▸ hxk)
      exact (List.mem_erase_of_ne hne).mpr hxid'
    have hnd : (keys.filter fun k => decide (k ∈ ids)).Nodup := hk.filter _
    have hle := (hnd.subperm hsub).length_le
    rw [List.length_erase_of_mem hmemi, hlen] at hle
    have hpos : 0 < ids.length := List.length_pos_of_mem hmemi
    omega
  · intro hres
    have h1 : (keys.filter fun k => decide (k ∈ ids)) ⊆ ids := by
      intro x hx
      have := List.mem_filter.mp hx
      simpa using this.2
    have h2 : ids ⊆ keys.filter fun k => decide (k ∈ ids) := by
      intro x hx
      exact List.mem_filter.mpr ⟨hres x hx, by simpa using hx⟩
    exact Nat.le_antisymm ((hk.filter _).subperm h1).length_le (hi.subperm h2).length_le

/-- When every referenced id resolves, the extracted sub-map has exactly one
entry per referenced id, each taken from the snapshot's segment map. -/
theorem segmentSubset_complete (segs : List (String × Segment)) (ids : List String)
    (hk : (segs.map Prod.fst).Nodup) (hi : ids.Nodup)
    (hres : ∀ i ∈ ids, i ∈ segs.map Prod.fst) :
    ids.length = (segmentSubset segs ids).length ∧
    (∀ kv ∈ segmentSubset segs ids, kv ∈ segs) ∧
    (∀ k, k ∈ (segmentSubset segs ids).map Prod.fst ↔ k ∈ ids) := by
  have hlen : (segmentSubset segs ids).length =
      ((segs.map Prod.fst).filter fun k => decide (k ∈ ids)).length := by
    rw [← segmentSubset_map_fst, List.length_map]
  refine ⟨?_, ?_, ?_⟩
  · rw [hlen, (length_filter_mem_eq_iff _ _ hk hi).mpr hres]
  · intro kv hkv
    exact List.mem_of_mem_filter hkv
  · intro k
    rw [segmentSubset_map_fst]
    constructor
    · intro hx
      have := List.mem_filter.mp hx
      simpa using this.2
    · intro hx
      exact List.mem_filter.mpr ⟨hres k hx, by simpa using hx⟩

/-- When some referenced id does not resolve, the cardinality comparison of the
integrity check fails. -/
theorem segmentSubset_length_ne (segs : List (String × Segment)) (ids : List String)
    (hk : (segs.map Prod.fst).Nodup) (hi : ids.Nodup)
    (hmiss : ∃ i ∈ ids, i ∉ segs.map Prod.fst) :
    ids.length ≠ (segmentSubset segs ids).length := by
  intro hlen
  rcases hmiss with ⟨i, hmemi, hmem⟩
  have : ∀ j ∈ ids, j ∈ segs.map Prod.fst := by
    apply (length_filter_mem_eq_iff _ _ hk hi).mp
    rw [← segmentSubset_map_fst, List.length_map, ← hlen]
  exact hmem (this i hmemi)

/-- C2: on the current catalog snapshot, `get_feature` and `get_property`
return `Ok` with a copy of the resource plus exactly the segments its
targeting rules reference when the id exists and every referenced segment id
resolves; they return the unknown-resource error when the id is absent; and
they return the `MissingSegments` integrity error exactly when the id exists
but some referenced segment id is absent from the segment map.  The `Nodup`
hypothesis is the key-uniqueness invariant of the source's `HashMap`. -/
theorem C2_snapshot_lookups (snapshot : ConfigurationSnapshot) (id : String)
    (hkeys : (snapshot.segments.map Prod.fst).Nodup) :
    ((snapshot.features.lookup id = none →
        client_get_feature snapshot id = .error (.featureNotFound id)) ∧
      (∀ f, snapshot.features.lookup id = some f →
        ((∀ i ∈ f.referencedSegmentIds, i ∈ snapshot.segments.map Prod.fst) →
          client_get_feature snapshot id =
            .ok { feature := f
                  segments := segmentSubset snapshot.segments f.referencedSegmentIds } ∧
          (∀ kv ∈ segmentSubset snapshot.segments f.referencedSegmentIds,
            kv ∈ snapshot.segments) ∧
          (∀ k, k ∈ (segmentSubset snapshot.segments f.referencedSegmentIds).map Prod.fst ↔
            k ∈ f.referencedSegmentIds)) ∧
        (client_get_feature snapshot id = .error (.missingSegments id) ↔
          ∃ i ∈ f.referencedSegmentIds, i ∉ snapshot.segments.map Prod.fst))) ∧
    ((snapshot.properties.lookup id = none →
        client_get_property snapshot id = .error (.propertyNotFound id)) ∧
      (∀ p, snapshot.properties.lookup id = some p →
        ((∀ i ∈ p.referencedSegmentIds, i ∈ snapshot.segments.map Prod.fst) →
          client_get_property snapshot id =
            .ok { property := p
                  segments := segmentSubset snapshot.segments p.referencedSegmentIds } ∧
          (∀ kv ∈ segmentSubset snapshot.segments p.referencedSegmentIds,
            kv ∈ snapshot.segments) ∧
          (∀ k, k ∈ (segmentSubset snapshot.segments p.referencedSegmentIds).map Prod.fst ↔
            k ∈ p.referencedSegmentIds)) ∧
        (client_get_property snapshot id = .error (.missingSegments id) ↔
          ∃ i ∈ p.referencedSegmentIds, i ∉ snapshot.segments.map Prod.fst))) := by
  constructor
  · constructor
    · intro h
      simp [client_get_feature, ConfigurationSnapshot.get_feature, h]
    · intro f hf
      have hi : f.referencedSegmentIds.Nodup := List.nodup_dedup _
      constructor
      · intro hres
        obtain ⟨hlen, hsub, hmem⟩ :=
          segmentSubset_complete snapshot.segments f.referencedSegmentIds hkeys hi hres
        refine ⟨?_, hsub, hmem⟩
        simp [client_get_feature, ConfigurationSnapshot.get_feature, hf, hlen]
      · constructor
        · intro herr
          by_contra hne
          push_neg at hne
          obtain ⟨hlen, _, _⟩ :=
            segmentSubset_complete snapshot.segments f.referencedSegmentIds hkeys hi hne
          rw [client_get_feature] at herr
          simp [ConfigurationSnapshot.get_feature, hf, hlen] at herr
        · intro hmiss
          have hne := segmentSubset_length_ne snapshot.segments f.referencedSegmentIds
            hkeys hi hmiss
          simp [client_get_feature, ConfigurationSnapshot.get_feature, hf, hne]
  · constructor
    · intro h
      simp [client_get_property, ConfigurationSnapshot.get_property, h]
    · intro p hp
      have hi : p.referencedSegmentIds.Nodup := List.nodup_dedup _
      constructor
      · intro hres
        obtain ⟨hlen, hsub, hmem⟩ :=
          segmentSubset_complete snapshot.segments p.referencedSegmentIds hkeys hi hres
        refine ⟨?_, hsub, hmem⟩
        simp [client_get_property, ConfigurationSnapshot.get_property, hp, hlen]
      · constructor
        · intro herr
          by_contra hne
          push_neg at hne
          obtain ⟨hlen, _, _⟩ :=
            segmentSubset_complete snapshot.segments p.referencedSegmentIds hkeys hi hne
          rw [client_get_property] at herr
          simp [ConfigurationSnapshot.get_property, hp, hlen] at herr
        · intro hmiss
          have hne := segmentSubset_length_ne snapshot.segments p.referencedSegmentIds
            hkeys hi hmiss
          simp [client_get_property, ConfigurationSnapshot.get_property, hp, hne]

/-- C2 witness: the three outcomes at concrete snapshots — a successful lookup
with exactly the referenced segment, an unknown id, and a dangling segment
reference. -/
theorem C2_snapshot_lookups_witness :
    client_get_feature sampleSnapshot "zzz" = .error (.featureNotFound "zzz") ∧
    client_get_feature danglingSnapshot "f1" = .error (.missingSegments "f1") ∧
    client_get_feature sampleSnapshot "f2" =
      .ok { feature := premiumFeature
            segments := segmentSubset sampleSnapshot.segments
              premiumFeature.referencedSegmentIds } := by
  refine ⟨?_, ?_, ?_⟩
  · exact (C2_snapshot_lookups sampleSnapshot "zzz" (by decide)).1.1 (by decide)
  · exact (((C2_snapshot_lookups danglingSnapshot "f1" (by decide)).1.2
      danglingFeature (by decide)).2).mpr ⟨"s1", by decide, by decide⟩
  · exact (((C2_snapshot_lookups sampleSnapshot "f2" (by decide)).1.2
      premiumFeature (by decide)).1 (by decide)).1

/-- C1 counterexample: a catalog document whose only feature references the
segment id "s1" while declaring no segments at all is accepted by snapshot
construction — the dangling reference is not rejected at construction, so an
installed snapshot can fail the segment-resolution integrity condition. -/
theorem C1_counterexample :
    ConfigurationSnapshot.new "dev" danglingConfiguration = .ok danglingSnapshot ∧
    segmentReferencesResolve danglingSnapshot = false :=
  ⟨rfl, rfl⟩

/-- C1 amended: the segment-resolution integrity condition is not enforced at
snapshot construction but at resource lookup: whenever `get_feature` or
`get_property` succeeds, every segment id referenced by the returned
resource's targeting rules resolves in the snapshot's segment map (a lookup
touching a dangling reference fails with the `MissingSegments` error
instead). -/
theorem C1_integrity_at_lookup (snapshot : ConfigurationSnapshot)
    (hkeys : (snapshot.segments.map Prod.fst).Nodup) :
    (∀ id fs, client_get_feature snapshot id = .ok fs →
      ∀ i ∈ fs.feature.referencedSegmentIds, i ∈ snapshot.segments.map Prod.fst) ∧
    (∀ id ps, client_get_property snapshot id = .ok ps →
      ∀ i ∈ ps.property.referencedSegmentIds, i ∈ snapshot.segments.map Prod.fst) := by
  constructor
  · intro id fs hok
    rw [client_get_feature] at hok
    cases hlk : snapshot.features.lookup id with
    | none => simp [ConfigurationSnapshot.get_feature, hlk] at hok
    | some f =>
      have hi : f.referencedSegmentIds.Nodup := List.nodup_dedup _
      by_cases hlen : f.referencedSegmentIds.length =
          (segmentSubset snapshot.segments f.referencedSegmentIds).length
      · have hfs : fs.feature = f := by
          simp [ConfigurationSnapshot.get_feature, hlk, hlen] at hok
          rw [← hok]
        rw [hfs]
        apply (length_filter_mem_eq_iff (snapshot.segments.map Prod.fst)
          f.referencedSegmentIds hkeys hi).mp
        rw [← segmentSubset_map_fst, List.length_map, ← hlen]
      · simp [ConfigurationSnapshot.get_feature, hlk, hlen] at hok
  · intro id ps hok
    rw [client_get_property] at hok
    cases hlk : snapshot.properties.lookup id with
    | none => simp [ConfigurationSnapshot.get_property, hlk] at hok
    | some p =>
      have hi : p.referencedSegmentIds.Nodup := List.nodup_dedup _
      by_cases hlen : p.referencedSegmentIds.length =
          (segmentSubset snapshot.segments p.referencedSegmentIds).length
      · have hps : ps.property = p := by
          simp [ConfigurationSnapshot.get_property, hlk, hlen] at hok
          rw [← hok]
        rw [hps]
        apply (length_filter_mem_eq_iff (snapshot.segments.map Prod.fst)
          p.referencedSegmentIds hkeys hi).mp
        rw [← segmentSubset_map_fst, List.length_map, ← hlen]
      · simp [ConfigurationSnapshot.get_property, hlk, hlen] at hok

/-- C1 amended witness: the successful lookup of `premiumFeature` resolves its
referenced segment id in the snapshot's segment map. -/
theorem C1_integrity_at_lookup_witness :
    "s1" ∈ sampleSnapshot.segments.map Prod.fst :=
  (C1_integrity_at_lookup sampleSnapshot (by decide)).1 "f2"
    { feature := premiumFeature
      segments := segmentSubset sampleSnapshot.segments premiumFeature.referencedSegmentIds }
    (by decide) "s1" (by decide)

/-- C3: in the update loop, the exact keep-alive text is ignored and the wait
keeps reading; any other textual payload returns a freshly fetched and built
snapshot; a close frame makes the wait return an error (on which the loop
terminates); and a successful refresh is installed into the shared store. -/
theorem C3_update_loop_text_messages :
    (∀ environment_id fetch rest,
      wait_for_configuration_update environment_id fetch (.ok (.text "test message") :: rest) =
        wait_for_configuration_update environment_id fetch rest) ∧
    (∀ environment_id fetch s rest, s ≠ "test message" →
      wait_for_configuration_update environment_id fetch (.ok (.text s) :: rest) =
        some (get_configuration_snapshot environment_id fetch, rest)) ∧
    (∀ environment_id fetch rest,
      wait_for_configuration_update environment_id fetch (.ok .close :: rest) =
        some (.error (.other "Connection closed by the server"), rest)) ∧
    (∀ environment_id s str rest f fq snap, s.phase = .waiting →
      s.socket = .ok (.text str) :: rest → str ≠ "test message" →
      s.fetchQueue = f :: fq → get_configuration_snapshot environment_id f = .ok snap →
      UpdaterStep environment_id s (.install snap)
        { s with phase := .atLoopTop, socket := rest, fetchQueue := fq,
                 store := s.store ++ [snap] }) := by
  refine ⟨?_, ?_, fun _ _ _ => rfl, ?_⟩
  · intro environment_id fetch rest
    simp [wait_for_configuration_update]
  · intro environment_id fetch s rest h
    simp [wait_for_configuration_update, h]
  · intro environment_id s str rest f fq snap h1 h2 h3 h4 h5
    exact .refreshInstall s str rest f fq snap h1 h2 h3 h4 h5

/-- C3 witness: the three message kinds at concrete inputs, and a concrete
install step. -/
theorem C3_update_loop_text_messages_witness :
    (wait_for_configuration_update "dev" (.ok emptyConfiguration)
        [.ok (.text "test message"), .ok .close] =
      wait_for_configuration_update "dev" (.ok emptyConfiguration) [.ok .close]) ∧
    (wait_for_configuration_update "dev" (.ok emptyConfiguration)
        [.ok (.text "configuration changed")] =
      some (get_configuration_snapshot "dev" (.ok emptyConfiguration), [])) ∧
    UpdaterStep "dev"
      { dropped := true, phase := .waiting,
        socket := [.ok (.text "configuration changed")],
        fetchQueue := [.ok emptyConfiguration], store := [] }
      (.install emptySnapshot)
      { dropped := true, phase := .atLoopTop, socket := [],
        fetchQueue := [], store := [emptySnapshot] } :=
  ⟨C3_update_loop_text_messages.1 "dev" (.ok emptyConfiguration) [.ok .close],
   C3_update_loop_text_messages.2.1 "dev" (.ok emptyConfiguration)
     "configuration changed" [] (by decide),
   C3_update_loop_text_messages.2.2.2 "dev" _ "configuration changed" []
     (.ok emptyConfiguration) [] emptySnapshot rfl rfl (by decide) rfl rfl⟩

/-- A possible outcome of the wait is preserved when an extra message is put in
front of the socket stream. -/
theorem waitOutcome_cons {environment_id : String} {fetch : FetchResult}
    {rest : List ReadResult} {res : Except Error ConfigurationSnapshot}
    (r : ReadResult) (h : WaitOutcome environment_id fetch rest res) :
    WaitOutcome environment_id fetch (r :: rest) res := by
  unfold WaitOutcome at h ⊢
  rcases h with ⟨h1, s, hs, hmem⟩ | ⟨h1, hmem⟩ | ⟨e, h1, hmem⟩
  · exact Or.inl ⟨h1, s, hs, List.mem_cons_of_mem _ hmem⟩
  · exact Or.inr (Or.inl ⟨h1, List.mem_cons_of_mem _ hmem⟩)
  · exact Or.inr (Or.inr ⟨e, h1, List.mem_cons_of_mem _ hmem⟩)

/-- C10: every websocket message that is neither a text message nor a close
frame (binary, ping, pong, raw frame) is silently skipped by the wait, which
keeps waiting; and the wait returns only on a non-keep-alive text message
(with the freshly fetched snapshot), on a close frame (with an error), or on a
socket read error (propagated). -/
theorem C10_non_text_messages_skipped :
    (∀ environment_id fetch rest,
      wait_for_configuration_update environment_id fetch (.ok .binary :: rest) =
        wait_for_configuration_update environment_id fetch rest) ∧
    (∀ environment_id fetch rest,
      wait_for_configuration_update environment_id fetch (.ok .ping :: rest) =
        wait_for_configuration_update environment_id fetch rest) ∧
    (∀ environment_id fetch rest,
      wait_for_configuration_update environment_id fetch (.ok .pong :: rest) =
        wait_for_configuration_update environment_id fetch rest) ∧
    (∀ environment_id fetch rest,
      wait_for_configuration_update environment_id fetch (.ok .frame :: rest) =
        wait_for_configuration_update environment_id fetch rest) ∧
    (∀ environment_id fetch socket res rest',
      wait_for_configuration_update environment_id fetch socket = some (res, rest') →
      WaitOutcome environment_id fetch socket res) := by
  refine ⟨fun _ _ _ => rfl, fun _ _ _ => rfl, fun _ _ _ => rfl, fun _ _ _ => rfl, ?_⟩
  intro environment_id fetch socket
  induction socket with
  | nil =>
    intro res rest' h
    simp [wait_for_configuration_update] at h
  | cons r rest ih =>
    intro res rest' h
    match r with
    | .error e =>
      rw [wait_for_configuration_update] at h
      simp only [Option.some.injEq, Prod.mk.injEq] at h
      exact Or.inr (Or.inr ⟨e, h.1.symm, List.mem_cons_self _ _⟩)
    | .ok (.text s) =>
      by_cases hs : s = "test message"
      · subst hs
        rw [wait_for_configuration_update] at h
        simp only [if_pos rfl] at h
        exact waitOutcome_cons _ (ih res rest' h)
      · rw [wait_for_configuration_update] at h
        simp only [if_neg hs, Option.some.injEq, Prod.mk.injEq] at h
        exact Or.inl ⟨h.1.symm, s, hs, List.mem_cons_self _ _⟩
    | .ok .close =>
      rw [wait_for_configuration_update] at h
      simp only [Option.some.injEq, Prod.mk.injEq] at h
      exact Or.inr (Or.inl ⟨h.1.symm, List.mem_cons_self _ _⟩)
    | .ok .binary => exact waitOutcome_cons _ (ih res rest' h)
    | .ok .ping => exact waitOutcome_cons _ (ih res rest' h)
    | .ok .pong => exact waitOutcome_cons _ (ih res rest' h)
    | .ok .frame => exact waitOutcome_cons _ (ih res rest' h)

/-- C10 witness: a ping is skipped and the wait terminates on the following
close frame with the connection-closed error. -/
theorem C10_non_text_messages_skipped_witness :
    (wait_for_configuration_update "dev" (.ok emptyConfiguration)
        [.ok .ping, .ok .close] =
      wait_for_configuration_update "dev" (.ok emptyConfiguration) [.ok .close]) ∧
    WaitOutcome "dev" (.ok emptyConfiguration) [.ok .ping, .ok .close]
      (.error (.other "Connection closed by the server")) :=
  ⟨C10_non_text_messages_skipped.2.1 "dev" (.ok emptyConfiguration) [.ok .close],
   C10_non_text_messages_skipped.2.2.2.2 "dev" (.ok emptyConfiguration)
     [.ok .ping, .ok .close] (.error (.other "Connection closed by the server")) [] rfl⟩

/-- A trace over a concatenated label list passes through an intermediate
state. -/
theorem updaterTrace_append_split {environment_id : String} {s sf : UpdaterState}
    {t1 t2 : List UpdaterLabel}
    (h : UpdaterTrace environment_id s (t1 ++ t2) sf) :
    ∃ smid, UpdaterTrace environment_id s t1 smid ∧
      UpdaterTrace environment_id smid t2 sf := by
  induction t1 generalizing s with
  | nil => exact ⟨s, .done s, h⟩
  | cons l t1 ih =>
    cases h with
    | step hstep htr =>
      obtain ⟨smid, h1, h2⟩ := ih htr
      exact ⟨smid, .step hstep h1, h2⟩

/-- Traces compose by concatenating their label lists. -/
theorem updaterTrace_append {environment_id : String} {s smid sf : UpdaterState}
    {t1 t2 : List UpdaterLabel}
    (h1 : UpdaterTrace environment_id s t1 smid)
    (h2 : UpdaterTrace environment_id smid t2 sf) :
    UpdaterTrace environment_id s (t1 ++ t2) sf := by
  induction h1 with
  | done s => exact h2
  | step hstep htr ih => exact .step hstep (ih h2)

/-- From a state whose loop has exited, the only possible action is the
environment dropping the facade, which touches neither phase nor store. -/
theorem updaterStep_from_done {environment_id : String} {s s2 : UpdaterState}
    {l : UpdaterLabel} (h : UpdaterStep environment_id s l s2)
    (hdone : s.phase = .done) :
    l = .drop ∧ s2.phase = .done ∧ s2.store = s.store := by
  cases h <;> simp_all

/-- Once the loop has exited, every further label is a drop and the store is
frozen. -/
theorem updaterTrace_from_done {environment_id : String} {s sf : UpdaterState}
    {t : List UpdaterLabel} (h : UpdaterTrace environment_id s t sf)
    (hdone : s.phase = .done) :
    (∀ l ∈ t, l = .drop) ∧ sf.phase = .done ∧ sf.store = s.store := by
  induction h with
  | done s => exact ⟨by simp, hdone, rfl⟩
  | step hstep htr ih =>
    obtain ⟨hl, hph, hst⟩ := updaterStep_from_done hstep hdone
    obtain ⟨h1, h2, h3⟩ := ih hph
    refine ⟨?_, h2, h3.trans hst⟩
    intro x hx
    rcases List.mem_cons.mp hx with hx | hx
    · exact hx.trans hl
    · exact h1 x hx

/-- C4: once the update loop encounters any error of its own — a failed
refetch (transport or parse), a server close frame, or a socket read error —
the remaining labels contain no loop activity at all (at most the external
drop of the facade), in particular no further installation, and the store is
frozen at its content right after the failure. -/
theorem C4_update_loop_stops_on_error (environment_id : String)
    (s0 sf : UpdaterState) (pre post : List UpdaterLabel) (l : UpdaterLabel)
    (hfail : isFailureLabel l = true)
    (htr : UpdaterTrace environment_id s0 (pre ++ l :: post) sf) :
    (∀ m ∈ post, m = .drop) ∧
    (∀ snap, UpdaterLabel.install snap ∉ post) ∧
    ∃ smid, UpdaterTrace environment_id s0 (pre ++ [l]) smid ∧
      UpdaterTrace environment_id smid post sf ∧ sf.store = smid.store := by
  obtain ⟨s1, h1, h2⟩ := updaterTrace_append_split htr
  cases h2 with
  | @step _ _ s2 _ _ hstep htr2 =>
    have hdone : s2.phase = .done := by
      cases hstep <;> simp_all [isFailureLabel]
    obtain ⟨hdropall, _, hst⟩ := updaterTrace_from_done htr2 hdone
    refine ⟨hdropall, ?_, s2, updaterTrace_append h1 (.step hstep (.done s2)), htr2, hst⟩
    intro snap hmem
    have := hdropall _ hmem
    simp at this

/-- C4 witness: a loop that reads a close frame exits with nothing after the
failure label. -/
theorem C4_update_loop_stops_on_error_witness :
    UpdaterLabel.install emptySnapshot ∉ ([] : List UpdaterLabel) :=
  (C4_update_loop_stops_on_error "dev"
    { dropped := false, phase := .waiting, socket := [.ok .close],
      fetchQueue := [], store := [] }
    { dropped := false, phase := .done, socket := [], fetchQueue := [], store := [] }
    [] [] (.failStop (.other "Connection closed by the server")) rfl
    (.step (.closeStop _ [] rfl rfl) (.done _))).2.1 emptySnapshot

/-- A step never resurrects a dropped facade. -/
theorem updaterStep_dropped_mono {environment_id : String} {s s2 : UpdaterState}
    {l : UpdaterLabel} (h : UpdaterStep environment_id s l s2)
    (hd : s.dropped = true) : s2.dropped = true := by
  cases h <;> simp_all

/-- After the facade has been dropped, a trace installs at most as many
snapshots as the install budget of its start state (one while inside a wait,
none otherwise) and never passes the terminator check again. -/
theorem updaterTrace_dropped_installs {environment_id : String} {s sf : UpdaterState}
    {t : List UpdaterLabel} (h : UpdaterTrace environment_id s t sf) :
    s.dropped = true →
    countInstalls t ≤ installBudget s ∧ .checkContinue ∉ t := by
  induction h with
  | done s => exact fun _ => ⟨by simp [countInstalls], by simp⟩
  | step hstep htr ih =>
    intro hd
    have hd2 := updaterStep_dropped_mono hstep hd
    obtain ⟨hcount, hmem⟩ := ih hd2
    cases hstep with
    | drop h => simp [h] at hd
    | checkStop h1 h2 =>
      refine ⟨?_, by simp [hmem]⟩
      simp [installBudget] at hcount
      simp [countInstalls, installBudget, h1]
      omega
    | checkContinue h1 h2 => simp [h2] at hd
    | skipKeepAlive rest h1 h2 =>
      refine ⟨?_, by simp [hmem]⟩
      simp [installBudget, h1] at hcount
      simp [countInstalls, installBudget, h1]
      omega
    | skipOther m rest h1 h2 h3 =>
      refine ⟨?_, by simp [hmem]⟩
      simp [installBudget, h1] at hcount
      simp [countInstalls, installBudget, h1]
      omega
    | refreshInstall str rest f fq snap h1 h2 h3 h4 h5 =>
      refine ⟨?_, by simp [hmem]⟩
      simp [installBudget] at hcount
      simp [countInstalls, installBudget, h1]
      omega
    | refreshFailed str rest f fq e h1 h2 h3 h4 h5 =>
      refine ⟨?_, by simp [hmem]⟩
      simp [installBudget] at hcount
      simp [countInstalls, installBudget, h1]
      omega
    | closeStop rest h1 h2 =>
      refine ⟨?_, by simp [hmem]⟩
      simp [installBudget] at hcount
      simp [countInstalls, installBudget, h1]
      omega
    | readFailed e rest h1 h2 =>
      refine ⟨?_, by simp [hmem]⟩
      simp [installBudget] at hcount
      simp [countInstalls, installBudget, h1]
      omega

/-- C5 counterexample: with the loop already past its terminator check and
blocked reading the socket, the facade is dropped, then a pending refresh
message is processed and its snapshot is installed — an installation into the
store strictly after the drop — before the next check stops the loop. -/
theorem C5_counterexample :
    UpdaterTrace "dev" updaterStart
      [.checkContinue, .drop, .install emptySnapshot, .checkStop]
      updaterAfterDropFinal :=
  .step (.checkContinue _ rfl rfl)
    (.step (.drop _ rfl)
      (.step (.refreshInstall _ "configuration changed" [] (.ok emptyConfiguration)
          [] emptySnapshot rfl rfl (by decide) rfl rfl)
        (.step (.checkStop _ rfl rfl) (.done _))))

/-- C5 amended: after the facade is dropped, the loop installs at most one
further snapshot (the one produced by a wait already in progress when the drop
occurred) and never passes the terminator check again — its first check after
the drop observes the closed channel and exits. -/
theorem C5_shutdown_amended (environment_id : String) (s0 sf : UpdaterState)
    (pre post : List UpdaterLabel)
    (htr : UpdaterTrace environment_id s0 (pre ++ .drop :: post) sf) :
    countInstalls post ≤ 1 ∧ .checkContinue ∉ post := by
  obtain ⟨s1, h1, h2⟩ := updaterTrace_append_split htr
  cases h2 with
  | @step _ _ s2 _ _ hstep htr2 =>
    have hdrop : s2.dropped = true := by
      cases hstep
      simp
    obtain ⟨hcount, hmem⟩ := updaterTrace_dropped_installs htr2 hdrop
    refine ⟨le_trans hcount ?_, hmem⟩
    rw [installBudget]
    split <;> omega

/-- C5 amended witness: the shutdown trace of the counterexample scenario
installs exactly one snapshot after the drop and never passes the check
again. -/
theorem C5_shutdown_amended_witness :
    countInstalls [UpdaterLabel.install emptySnapshot, .checkStop] ≤ 1 ∧
    UpdaterLabel.checkContinue ∉ [UpdaterLabel.install emptySnapshot, .checkStop] :=
  C5_shutdown_amended "dev" updaterStart updaterAfterDropFinal [.checkContinue]
    [.install emptySnapshot, .checkStop]
    (.step (.checkContinue _ rfl rfl)
      (.step (.drop _ rfl)
        (.step (.refreshInstall _ "configuration changed" [] (.ok emptyConfiguration)
            [] emptySnapshot rfl rfl (by decide) rfl rfl)
          (.step (.checkStop _ rfl rfl) (.done _)))))

/-- The events of one label leave the well-formedness of the lock windows
untouched: no label's event sequence opens a lock window without closing it
around exactly the swap. -/
theorem lockWindows_chunk (l : UpdaterLabel) (rest : List SyncEvent) :
    lockWindowsWellFormed (labelSyncEvents l ++ rest) = lockWindowsWellFormed rest := by
  cases l <;> simp [labelSyncEvents, lockWindowsWellFormed]

/-- C9: along every execution of the update loop, every acquisition of the
snapshot store's lock is immediately followed by the value swap and the
release — the lock is held only for the swap, and never across a socket read,
the HTTP fetch or the snapshot build, which all happen outside the lock. -/
theorem C9_lock_only_for_swap (environment_id : String) (s0 sf : UpdaterState)
    (t : List UpdaterLabel) (htr : UpdaterTrace environment_id s0 t sf) :
    lockWindowsWellFormed (t.flatMap labelSyncEvents) = true := by
  induction htr with
  | done s => rfl
  | step hstep htr ih =>
    rw [List.flatMap_cons, lockWindows_chunk]
    exact ih

/-- C9 witness: the event sequence of a concrete run that performs one
install. -/
theorem C9_lock_only_for_swap_witness :
    lockWindowsWellFormed
      ([UpdaterLabel.checkContinue, .install emptySnapshot].flatMap labelSyncEvents) = true :=
  C9_lock_only_for_swap "dev" updaterStart
    { dropped := false, phase := .atLoopTop, socket := [], fetchQueue := [],
      store := [emptySnapshot] }
    [.checkContinue, .install emptySnapshot]
    (.step (.checkContinue _ rfl rfl)
      (.step (.refreshInstall _ "configuration changed" [] (.ok emptyConfiguration)
          [] emptySnapshot rfl rfl (by decide) rfl rfl)
        (.done _)))

end AppConfig
